/-
  Verification of the Survev.io Skin Creator (Whostam/Survev.io-Skin-Creator).

  Shallow embedding of the color math (`skin_creator/helpers.py`), the fill
  generator (`skin_creator/fills.py`), the sprite builders
  (`skin_creator/sprites.py`) and the preview layout engine
  (`skin_creator/preview.py`).  Python `int` is embedded as `Int`, Python
  `float` as `ℚ` (the float arguments used by the app are exact small
  decimals; float rounding is not modelled), Python strings as Lean `String`
  (`List Char`), and fallible Python code (code that can raise) as `Option`.
-/

import Mathlib

namespace SkinCreator

/-! ## Python string primitives

Python `str.strip()` removes whitespace from both ends; we model the ASCII
whitespace characters (space, tab, newline, carriage return, vertical tab,
form feed), which covers every input the application can produce. -/

/-- ASCII whitespace, as stripped by Python `str.strip()`. -/
def pyIsSpace (c : Char) : Bool :=
  c.toNat = 32 || c.toNat = 9 || c.toNat = 10 || c.toNat = 13 || c.toNat = 11 || c.toNat = 12

/-- Python `str.strip()` on a character list: drop whitespace at both ends. -/
def pyStrip (l : List Char) : List Char :=
  ((l.dropWhile pyIsSpace).reverse.dropWhile pyIsSpace).reverse

/-- Python `str.lstrip("#")`: drop every leading `'#'`. -/
def lstripHash (l : List Char) : List Char :=
  l.dropWhile (fun c => c = '#')

/-- Python slice `l[a:b]` (with the clamping slice semantics). -/
def pySlice (l : List Char) (a b : Nat) : List Char :=
  (l.drop a).take (b - a)

/-- Value of one hexadecimal digit character, as accepted by Python
`int(_, 16)` (digits, lowercase `a`-`f`, uppercase `A`-`F`). -/
def hexDigitVal (c : Char) : Option Nat :=
  if 48 ≤ c.toNat ∧ c.toNat ≤ 57 then some (c.toNat - 48)
  else if 97 ≤ c.toNat ∧ c.toNat ≤ 102 then some (c.toNat - 87)
  else if 65 ≤ c.toNat ∧ c.toNat ≤ 70 then some (c.toNat - 55)
  else none

/-- Hex digit run accumulator: Python `int(_, 16)` allows a single
underscore between two digits, but not trailing or doubled underscores. -/
def hexCore (acc : Nat) : List Char → Option Nat
  | [] => some acc
  | c :: r =>
    if c = '_' then
      match r with
      | [] => none
      | c2 :: r2 =>
        match hexDigitVal c2 with
        | some v => hexCore (acc * 16 + v) r2
        | none => none
    else
      match hexDigitVal c with
      | some v => hexCore (acc * 16 + v) r
      | none => none

/-- A nonempty hex digit run: must start with a digit (no leading underscore). -/
def hexDigits (l : List Char) : Option Nat :=
  match l with
  | [] => none
  | c :: r =>
    match hexDigitVal c with
    | some v => hexCore v r
    | none => none

/-- Digits of a base-16 literal after the optional sign: Python allows an
optional `0x`/`0X` marker, optionally followed by one underscore. -/
def hexBody (l : List Char) : Option Nat :=
  match l with
  | c0 :: c1 :: r =>
    if c0 = '0' ∧ (c1 = 'x' ∨ c1 = 'X') then
      match r with
      | '_' :: r2 => hexDigits r2
      | _ => hexDigits r
    else hexDigits (c0 :: c1 :: r)
  | _ => hexDigits l

/-- Python `int(s, 16)`: strip whitespace, optional sign, optional `0x`
marker, then a nonempty underscore-grouped hex digit run.  `none` models the
`ValueError` raised on malformed input. -/
def pyIntHex16 (l : List Char) : Option Int :=
  match pyStrip l with
  | [] => none
  | c :: r =>
    if c = '+' then (hexBody r).map Int.ofNat
    else if c = '-' then (hexBody r).map (fun n => -(n : Int))
    else (hexBody (c :: r)).map Int.ofNat

/-! ## Decimal and hexadecimal rendering (Python `str` / `format`) -/

/-- Lowercase hexadecimal digit character for a value `v < 16`. -/
def hexDigitChar (v : Nat) : Char :=
  if v < 10 then Char.ofNat (48 + v) else Char.ofNat (87 + v)

/-- Digit-extraction loop for `natHexRepr`, structurally recursive on a
fuel bound (`n` itself always suffices, since `n / 16 < n`). -/
def natHexReprAux : Nat → Nat → List Char
  | 0, _ => []
  | fuel + 1, n =>
    if n < 16 then [hexDigitChar n]
    else natHexReprAux fuel (n / 16) ++ [hexDigitChar (n % 16)]

/-- Lowercase hexadecimal rendering of a natural number (no padding),
most significant digit first; renders `0` as `"0"`. -/
def natHexRepr (n : Nat) : List Char := natHexReprAux (n + 1) n

/-- Python format spec `02x` on an `int`: lowercase hex, zero-padded to
(total) width 2; a negative number renders its sign plus its magnitude. -/
def fmt02x (n : Int) : List Char :=
  if n < 0 then '-' :: natHexRepr n.natAbs
  else
    let s := natHexRepr n.toNat
    if s.length < 2 then '0' :: s else s

/-- Decimal digit character for `v < 10`. -/
def decDigitChar (v : Nat) : Char := Char.ofNat (48 + v)

/-- Digit-extraction loop for `natDecRepr`, structurally recursive on a
fuel bound. -/
def natDecReprAux : Nat → Nat → List Char
  | 0, _ => []
  | fuel + 1, n =>
    if n < 10 then [decDigitChar n]
    else natDecReprAux fuel (n / 10) ++ [decDigitChar (n % 10)]

/-- Decimal rendering of a natural number, as Python `str(int)`. -/
def natDecRepr (n : Nat) : List Char := natDecReprAux (n + 1) n

/-- Python `str` of an `int` (decimal, sign for negatives). -/
def intRepr (n : Int) : String :=
  if n < 0 then ⟨'-' :: natDecRepr n.natAbs⟩ else ⟨natDecRepr n.toNat⟩

/-- Rendering of an exact-decimal rational, modelling Python `str(float)`
for the short decimal values the application passes around (e.g. `0.6`,
`8.0`): integer part, a dot, then the fractional digits (at most 6, enough
for every literal the app uses; an integral value renders with `".0"`). -/
def ratRepr (q : ℚ) : String :=
  let sign : List Char := if q < 0 then ['-'] else []
  let a : ℚ := |q|
  let ip : Nat := ⌊a⌋.toNat
  let frac : ℚ := a - ⌊a⌋
  let digits : List Char :=
    (List.range 6).foldl
      (fun (st : List Char × ℚ) _ =>
        let d : Nat := ⌊st.2 * 10⌋.toNat
        (st.1 ++ [decDigitChar d], st.2 * 10 - ⌊st.2 * 10⌋))
      ([], frac) |>.1
  let trimmed := (digits.reverse.dropWhile (fun c => c = '0')).reverse
  let fracDigits := if trimmed.isEmpty then ['0'] else trimmed
  ⟨sign ++ natDecRepr ip ++ '.' :: fracDigits⟩

/-- ASCII lowercasing of one character, as Python `str.lower()` on the
hex-color alphabet. -/
def asciiToLower (c : Char) : Char :=
  if 65 ≤ c.toNat ∧ c.toNat ≤ 90 then Char.ofNat (c.toNat + 32) else c

/-- Python `str.lower()` (ASCII fragment). -/
def strToLower (s : String) : String := ⟨s.data.map asciiToLower⟩

/-! ## Embedding of `skin_creator/helpers.py` -/

/-- `helpers.sanitize`: `re.sub(r"[^A-Za-z0-9]+", "", name.strip()) or "Custom"`.
Substituting every run of non-alphanumeric characters by the empty string
is exactly the removal of every non-alphanumeric character. -/
def isAsciiAlnum (c : Char) : Bool :=
  (48 ≤ c.toNat && c.toNat ≤ 57) || (65 ≤ c.toNat && c.toNat ≤ 90) ||
    (97 ≤ c.toNat && c.toNat ≤ 122)

/-- `helpers.sanitize`. -/
def sanitize (name : String) : String :=
  let cleanedList := (pyStrip name.data).filter isAsciiAlnum
  if cleanedList.isEmpty then "Custom" else ⟨cleanedList⟩

/-- The cleaned-up color string inside `helpers.hex_to_rgb`:
`hex_str.strip().lstrip("#")`. -/
def hexClean (s : String) : List Char := lstripHash (pyStrip s.data)

/-- `helpers.hex_to_rgb`: parse `h[0:2]`, `h[2:4]`, `h[4:6]` with
`int(_, 16)`; `none` models the `ValueError`/`IndexError` escape on inputs
where one of the slices is not a hex literal. -/
def hex_to_rgb (s : String) : Option (Int × Int × Int) :=
  let h := hexClean s
  match pyIntHex16 (pySlice h 0 2), pyIntHex16 (pySlice h 2 4), pyIntHex16 (pySlice h 4 6) with
  | some r, some g, some b => some (r, g, b)
  | _, _, _ => none

/-- `helpers.rgb_to_ts_hex`: `f"0x{r:02x}{g:02x}{b:02x}"`. -/
def rgb_to_ts_hex (rgb : Int × Int × Int) : String :=
  ⟨'0' :: 'x' :: (fmt02x rgb.1 ++ fmt02x rgb.2.1 ++ fmt02x rgb.2.2)⟩

/-- Python `round()` on an exact rational: round half to even. -/
def pyRound (q : ℚ) : Int :=
  let f : Int := ⌊q⌋
  let frac : ℚ := q - f
  if frac < 1 / 2 then f
  else if 1 / 2 < frac then f + 1
  else if f % 2 = 0 then f else f + 1

/-- `helpers.clamp_byte`: `max(0, min(255, int(round(value))))`. -/
def clamp_byte (value : ℚ) : Int :=
  max 0 (min 255 (pyRound value))

/-- `helpers.lighten`: per-channel move toward 255 then clamp and
re-encode as `"#rrggbb"`. -/
def lighten (hex_str : String) (amount : ℚ) : Option String :=
  (hex_to_rgb hex_str).map fun rgb =>
    let r := clamp_byte ((rgb.1 : ℚ) + (255 - (rgb.1 : ℚ)) * amount)
    let g := clamp_byte ((rgb.2.1 : ℚ) + (255 - (rgb.2.1 : ℚ)) * amount)
    let b := clamp_byte ((rgb.2.2 : ℚ) + (255 - (rgb.2.2 : ℚ)) * amount)
    ⟨'#' :: (fmt02x r ++ fmt02x g ++ fmt02x b)⟩

/-- `helpers.darken`: per-channel scale toward 0 then clamp and re-encode. -/
def darken (hex_str : String) (amount : ℚ) : Option String :=
  (hex_to_rgb hex_str).map fun rgb =>
    let r := clamp_byte ((rgb.1 : ℚ) * (1 - amount))
    let g := clamp_byte ((rgb.2.1 : ℚ) * (1 - amount))
    let b := clamp_byte ((rgb.2.2 : ℚ) * (1 - amount))
    ⟨'#' :: (fmt02x r ++ fmt02x g ++ fmt02x b)⟩

/-! ## Well-formedness predicates used by the claims -/

/-- The color string with one leading `'#'` removed, if present. -/
def hashStripped (l : List Char) : List Char :=
  match l with
  | [] => []
  | c :: rest => if c = '#' then rest else c :: rest

/-- A 6-hex-digit color string, with or without one leading `'#'`, any
letter case (the well-formedness notion of the claims). -/
def wellFormed6 (s : String) : Bool :=
  (hashStripped s.data).length = 6 &&
    (hashStripped s.data).all (fun c => (hexDigitVal c).isSome)

/-- Strip one leading `'#'` (the `strip(x, "#")` of the round-trip claim). -/
def stripHash (s : String) : String := ⟨hashStripped s.data⟩

/-- A lowercase hexadecimal digit character. -/
def isLowerHexDigit (c : Char) : Bool :=
  (48 ≤ c.toNat && c.toNat ≤ 57) || (97 ≤ c.toNat && c.toNat ≤ 102)

/-- A canonical color string: `'#'` followed by exactly six lowercase hex
digits (the shape `lighten`/`darken` emit). -/
def isCanonicalHexColor (s : String) : Bool :=
  match s.data with
  | c :: rest => c = '#' && rest.length = 6 && rest.all isLowerHexDigit
  | [] => false

/-! ## Embedding of `skin_creator/fills.py` -/

/-- `fills.def_linear_grad`. -/
def def_linear_grad (id_ color_a color_b : String) (angle_deg : Int) : String :=
  "<defs><linearGradient id=\"" ++ id_ ++ "\" gradientUnits=\"userSpaceOnUse\" " ++
    "x1=\"0\" y1=\"0\" x2=\"512\" y2=\"0\" gradientTransform=\"rotate(" ++
    intRepr angle_deg ++ " 256 256)\">" ++
    "<stop offset=\"0%\" stop-color=\"" ++ color_a ++ "\"/>" ++
    "<stop offset=\"100%\" stop-color=\"" ++ color_b ++ "\"/>" ++
    "</linearGradient></defs>"

/-- `fills.def_radial_grad`. -/
def def_radial_grad (id_ color_a color_b : String) : String :=
  "<defs><radialGradient id=\"" ++ id_ ++ "\" cx=\"50%\" cy=\"45%\" r=\"60%\">" ++
    "<stop offset=\"0%\" stop-color=\"" ++ color_a ++ "\"/>" ++
    "<stop offset=\"100%\" stop-color=\"" ++ color_b ++ "\"/>" ++
    "</radialGradient></defs>"

/-- `fills.def_stripes`: the two-rectangle stripe tile; the pattern square
is `gap * 2` wide and high and is rotated by `angle`. -/
def def_stripes (id_ base stripe : String) (gap : Int) (angle : Int)
    (opacity : ℚ) : String :=
  "<defs><pattern id=\"" ++ id_ ++ "\" patternUnits=\"userSpaceOnUse\" " ++
    ("width=\"" ++ intRepr (gap * 2) ++ "\" height=\"" ++ intRepr (gap * 2) ++
      "\"") ++
    " patternTransform=\"" ++ ("rotate(" ++ intRepr angle ++ ")") ++ "\">" ++
    "<rect width=\"100%\" height=\"100%\" fill=\"" ++ base ++ "\"/>" ++
    "<rect x=\"0\" y=\"0\" width=\"" ++ intRepr gap ++
    "\" height=\"100%\" fill=\"" ++ stripe ++ "\" opacity=\"" ++
    ratRepr opacity ++ "\"/>" ++
    "</pattern></defs>"

/-- `fills.def_crosshatch` (Python `gap / 2` is true division, a float). -/
def def_crosshatch (id_ base stripe : String) (gap : Int) (opacity : ℚ) : String :=
  "<defs><pattern id=\"" ++ id_ ++ "\" patternUnits=\"userSpaceOnUse\" " ++
    "width=\"" ++ intRepr gap ++ "\" height=\"" ++ intRepr gap ++ "\">" ++
    "<rect width=\"100%\" height=\"100%\" fill=\"" ++ base ++ "\"/>" ++
    "<path d=\"M0,0 L" ++ intRepr gap ++ ",0 M0,0 L0," ++ intRepr gap ++
    "\" " ++ "stroke=\"" ++ stripe ++ "\" stroke-width=\"" ++
    ratRepr ((gap : ℚ) / 2) ++ "\" opacity=\"" ++ ratRepr opacity ++ "\"/>" ++
    "</pattern></defs>"

/-- `fills.def_dots`. -/
def def_dots (id_ base dot : String) (size gap : Int) (opacity : ℚ) : String :=
  "<defs><pattern id=\"" ++ id_ ++ "\" patternUnits=\"userSpaceOnUse\" " ++
    "width=\"" ++ intRepr gap ++ "\" height=\"" ++ intRepr gap ++ "\">" ++
    "<rect width=\"100%\" height=\"100%\" fill=\"" ++ base ++ "\"/>" ++
    "<circle cx=\"" ++ ratRepr ((gap : ℚ) / 2) ++ "\" cy=\"" ++
    ratRepr ((gap : ℚ) / 2) ++ "\" r=\"" ++ intRepr size ++ "\" fill=\"" ++
    dot ++ "\" opacity=\"" ++ ratRepr opacity ++ "\"/>" ++
    "</pattern></defs>"

/-- `fills.def_checker`. -/
def def_checker (id_ color_a color_b : String) (size : Int) : String :=
  "<defs><pattern id=\"" ++ id_ ++ "\" patternUnits=\"userSpaceOnUse\" " ++
    "width=\"" ++ intRepr (2 * size) ++ "\" height=\"" ++ intRepr (2 * size) ++ "\">" ++
    "<rect width=\"" ++ intRepr (2 * size) ++ "\" height=\"" ++
    intRepr (2 * size) ++ "\" fill=\"" ++ color_a ++ "\"/>" ++
    "<rect x=\"" ++ intRepr size ++ "\" width=\"" ++ intRepr size ++
    "\" height=\"" ++ intRepr size ++ "\" y=\"0\" fill=\"" ++ color_b ++ "\"/>" ++
    "<rect x=\"0\" y=\"" ++ intRepr size ++ "\" width=\"" ++ intRepr size ++
    "\" height=\"" ++ intRepr size ++ "\" fill=\"" ++ color_b ++ "\"/>" ++
    "</pattern></defs>"

/-- `fills.build_fill`: dispatch on the style name; any unrecognized style
falls through to the final `return "", base`. -/
def build_fill (style base secondary extra_color : String) (angle gap : Int)
    (opacity : ℚ) (size : Int) : String × String :=
  if style = "Solid" then ("", base)
  else if style = "Linear Gradient" then
    (def_linear_grad "lg" base secondary angle, "url(#lg)")
  else if style = "Radial Gradient" then
    (def_radial_grad "rg" base secondary, "url(#rg)")
  else if style = "Diagonal Stripes" then
    (def_stripes "ds" base extra_color gap angle opacity, "url(#ds)")
  else if style = "Horizontal Stripes" then
    (def_stripes "hs" base extra_color gap 0 opacity, "url(#hs)")
  else if style = "Vertical Stripes" then
    (def_stripes "vs" base extra_color gap 90 opacity, "url(#vs)")
  else if style = "Crosshatch" then
    (def_crosshatch "ch" base extra_color gap opacity, "url(#ch)")
  else if style = "Dots" then
    (def_dots "pd" base extra_color size gap opacity, "url(#pd)")
  else if style = "Checker" then
    (def_checker "ck" base secondary size, "url(#ck)")
  else ("", base)

/-! ## Embedding of `skin_creator/sprites.py` (`svg_body`) -/

/-- `helpers.svg_header`. -/
def svg_header (width height : Int) : String :=
  "<svg xmlns=\"http://www.w3.org/2000/svg\" width=\"" ++ intRepr width ++
    "\" height=\"" ++ intRepr height ++ "\" viewBox=\"0 0 " ++ intRepr width ++
    " " ++ intRepr height ++ "\" shape-rendering=\"geometricPrecision\" " ++
    "text-rendering=\"geometricPrecision\">"

/-- `helpers.svg_footer`. -/
def svg_footer : String := "</svg>"

/-- Per-part configuration dictionary; `svg_body` never reads it, so the
keys it may carry are irrelevant here and it is embedded as an association
list. -/
def PartConfig : Type := List (String × String)

/-- Python `"\n".join(parts)`. -/
def joinNL : List String → String
  | [] => ""
  | [s] => s
  | s :: rest => s ++ "\n" ++ joinNL rest

/-- `sprites.svg_body`: header, optional fill defs, one filled ellipse,
footer, joined by newlines.  The `stroke_col` / `stroke_w` /
`outline_style` parameters are accepted and ignored by the source. -/
def svg_body (fill_defs fill_ref : String) (cfg : PartConfig)
    (stroke_col : String) (stroke_w : ℚ) (outline_style : String) : String :=
  let parts : List String :=
    [svg_header 140 140] ++ (if fill_defs = "" then [] else [fill_defs]) ++
      ["<ellipse cx=\"70\" cy=\"70\" rx=\"66\" ry=\"66\" fill=\"" ++ fill_ref ++ "\" />",
       svg_footer]
  joinNL parts

/-! ## Embedding of `skin_creator/preview.py` -/

/-- `preview.PreviewLayout` (Python ints as `Int`, floats as `ℚ`). -/
structure PreviewLayout where
  stage_width : Int := 420
  stage_height : Int := 480
  body_size : Int := 134
  body_top : Int := 190
  body_left_offset : Int := 0
  body_width : Option Int := none
  body_height : Option Int := none
  body_left : Option Int := none
  body_rotation : ℚ := 0
  hand_size : Int := 52
  hand_offset_x : Int := 32
  hand_offset_y : Int := 34
  hand_top : Option Int := none
  hand_left : Option Int := none
  hand_right : Option Int := none
  hand_width : Option Int := none
  hand_height : Option Int := none
  hand_left_top : Option Int := none
  hand_right_top : Option Int := none
  hand_rotation_left : ℚ := 0
  hand_rotation_right : ℚ := 0
  right_hand_mirror : Bool := true
  hands_above_body : Bool := true
  backpack_size : Int := 148
  backpack_top : Int := 110
  backpack_offset_x : Int := 0
  backpack_width : Option Int := none
  backpack_height : Option Int := none
  backpack_left : Option Int := none
  show_backpack : Bool := true
  overlay_size : Int := 160
  overlay_offset_x : Int := 0
  overlay_offset_y : Int := 0
  overlay_above_body : Bool := true
  overlay_width : Option Int := none
  overlay_height : Option Int := none
  overlay_left : Option Int := none
  overlay_top : Option Int := none
  show_overlay : Bool := true
  show_feet : Bool := false
  feet_size : Int := 38
  feet_offset_x : Int := 28
  feet_offset_y : Int := 12
  feet_top : Option Int := none
  feet_left : Option Int := none
  feet_right : Option Int := none
  feet_width : Option Int := none
  feet_height : Option Int := none
  feet_left_top : Option Int := none
  feet_right_top : Option Int := none
  feet_rotation_left : ℚ := 0
  feet_rotation_right : ℚ := 0
  right_foot_mirror : Bool := true
  feet_above_body : Bool := true

/-- `preview.BodyFrame`. -/
structure BodyFrame where
  left : Int
  top : Int
  width : Int
  height : Int
  rotation : ℚ

/-- `preview.body_frame_from_layout` (Python `//` is floor division,
embedded as `Int.fdiv`). -/
def body_frame_from_layout (layout : PreviewLayout) : BodyFrame :=
  let body_width := layout.body_width.getD layout.body_size
  let body_height := layout.body_height.getD layout.body_size
  let body_left := layout.body_left.getD
    (Int.fdiv (layout.stage_width - body_width) 2 + layout.body_left_offset)
  { left := body_left, top := layout.body_top, width := body_width,
    height := body_height, rotation := layout.body_rotation }

/-- The optional `front` dictionary handed to the preview geometry: absent
keys fall back exactly as `front.get(key, default)` does in the source
(`enabled`/`above_hands` default falsy, `overlay_above_front` defaults
true, geometry keys default to the body frame). -/
structure Front where
  enabled : Bool := false
  left : Option Int := none
  top : Option Int := none
  width : Option Int := none
  height : Option Int := none
  rotation : Option ℚ := none
  above_hands : Bool := false
  overlay_above_front : Bool := true

/-- One entry of the geometry dictionary returned by
`preview._compute_preview_geometry`. -/
structure GeomItem where
  left : Int
  top : Int
  width : Int
  height : Int
  transform : String
  visible : Bool
  z : Int

/-- The geometry dictionary returned by
`preview._compute_preview_geometry` (the `stage` entry flattened into the
two stage fields, plus the two flags stored on the `front` entry). -/
structure Geometry where
  stage_width : Int
  stage_height : Int
  body : GeomItem
  backpack : GeomItem
  overlay : GeomItem
  hand_left : GeomItem
  hand_right : GeomItem
  feet_left : GeomItem
  feet_right : GeomItem
  front : GeomItem
  front_above_hands : Bool
  front_overlay_above_front : Bool

/-- `preview._build_transform`: drop falsy parts, join with spaces.  A
Python `None` entry is filtered exactly like an empty string, so the
optional `scaleX(-1)` member is embedded by prepending it when present. -/
def build_transform (parts : List String) : String :=
  let filtered := parts.filter (fun p => ¬ p = "")
  if filtered.isEmpty then "" else String.intercalate " " filtered

/-- `preview._compute_preview_geometry`.  The trailing in-place z-index
adjustments of the source are expressed as staged `let` bindings
(`overlay_z1`, `front_z1`, `front_z2`) applied in source order. -/
def compute_preview_geometry (layout : PreviewLayout) (front : Front) : Geometry :=
  let body_frame := body_frame_from_layout layout
  let body_width := body_frame.width
  let body_height := body_frame.height
  let body_left := body_frame.left
  let backpack_width := layout.backpack_width.getD layout.backpack_size
  let backpack_height := layout.backpack_height.getD layout.backpack_size
  let backpack_left := layout.backpack_left.getD
    (Int.fdiv (layout.stage_width - backpack_width) 2 + layout.backpack_offset_x)
  let hand_width := layout.hand_width.getD layout.hand_size
  let hand_height := layout.hand_height.getD layout.hand_size
  let hand_left := layout.hand_left.getD (body_left - layout.hand_offset_x)
  let hand_right := layout.hand_right.getD
    (layout.stage_width - hand_left - hand_width)
  let base_hand_top := layout.hand_top.getD
    (layout.body_top + body_height - layout.hand_offset_y)
  let hand_left_top := layout.hand_left_top.getD base_hand_top
  let hand_right_top := layout.hand_right_top.getD base_hand_top
  let overlay_width := layout.overlay_width.getD layout.overlay_size
  let overlay_height := layout.overlay_height.getD layout.overlay_size
  let overlay_left := layout.overlay_left.getD
    (body_left - Int.fdiv (overlay_width - body_width) 2 + layout.overlay_offset_x)
  let overlay_top := layout.overlay_top.getD
    (body_frame.top - Int.fdiv (overlay_height - body_height) 2 + layout.overlay_offset_y)
  let feet_width := layout.feet_width.getD layout.feet_size
  let feet_height := layout.feet_height.getD layout.feet_size
  let feet_left := layout.feet_left.getD (body_left - layout.feet_offset_x)
  let feet_right := layout.feet_right.getD
    (layout.stage_width - feet_left - feet_width)
  let base_feet_top := layout.feet_top.getD
    (body_frame.top + body_height - layout.feet_offset_y)
  let feet_left_top := layout.feet_left_top.getD base_feet_top
  let feet_right_top := layout.feet_right_top.getD base_feet_top
  let body_transform := build_transform
    ["rotate(" ++ ratRepr body_frame.rotation ++ "deg)"]
  let hand_left_transform := build_transform
    ["rotate(" ++ ratRepr layout.hand_rotation_left ++ "deg)"]
  let hand_right_transform := build_transform
    ((if layout.right_hand_mirror then ["scaleX(-1)"] else []) ++
      ["rotate(" ++ ratRepr layout.hand_rotation_right ++ "deg)"])
  let feet_left_transform := build_transform
    ["rotate(" ++ ratRepr layout.feet_rotation_left ++ "deg)"]
  let feet_right_transform := build_transform
    ((if layout.right_foot_mirror then ["scaleX(-1)"] else []) ++
      ["rotate(" ++ ratRepr layout.feet_rotation_right ++ "deg)"])
  let front_enabled := front.enabled
  let front_left := front.left.getD body_left
  let front_top := front.top.getD body_frame.top
  let front_width := front.width.getD body_width
  let front_height := front.height.getD body_height
  let front_rotation := front.rotation.getD body_frame.rotation
  let front_above_hands := front.above_hands
  let overlay_above_front := front.overlay_above_front
  let hand_z : Int := if layout.hands_above_body then 80 else 30
  let feet_z : Int := if layout.feet_above_body then 70 else 20
  let overlay_z0 : Int := 65
  let front_z0 : Int := if front_above_hands then 75 else 55
  let overlay_z1 : Int :=
    if layout.show_overlay then
      if ¬ front_enabled then 65
      else if overlay_above_front then max (front_z0 + 5) overlay_z0
      else overlay_z0
    else overlay_z0
  let front_z1 : Int :=
    if layout.show_overlay ∧ front_enabled ∧ ¬ overlay_above_front then
      max (overlay_z0 + 5) front_z0
    else front_z0
  let front_z2 : Int :=
    if front_enabled ∧ front_above_hands then max front_z1 (hand_z + 5)
    else front_z1
  { stage_width := layout.stage_width
    stage_height := layout.stage_height
    body := { left := body_left, top := body_frame.top, width := body_width,
              height := body_height, transform := body_transform,
              visible := true, z := 50 }
    backpack := { left := backpack_left, top := layout.backpack_top,
                  width := backpack_width, height := backpack_height,
                  transform := "", visible := layout.show_backpack, z := 10 }
    overlay := { left := overlay_left, top := overlay_top,
                 width := overlay_width, height := overlay_height,
                 transform := "", visible := layout.show_overlay,
                 z := overlay_z1 }
    hand_left := { left := hand_left, top := hand_left_top,
                   width := hand_width, height := hand_height,
                   transform := hand_left_transform, visible := true,
                   z := hand_z }
    hand_right := { left := hand_right, top := hand_right_top,
                    width := hand_width, height := hand_height,
                    transform := hand_right_transform, visible := true,
                    z := hand_z }
    feet_left := { left := feet_left, top := feet_left_top,
                   width := feet_width, height := feet_height,
                   transform := feet_left_transform,
                   visible := layout.show_feet, z := feet_z }
    feet_right := { left := feet_right, top := feet_right_top,
                    width := feet_width, height := feet_height,
                    transform := feet_right_transform,
                    visible := layout.show_feet, z := feet_z }
    front := { left := front_left, top := front_top, width := front_width,
               height := front_height,
               transform := build_transform
                 ["rotate(" ++ ratRepr front_rotation ++ "deg)"],
               visible := front_enabled, z := front_z2 }
    front_above_hands := front_above_hands
    front_overlay_above_front := overlay_above_front }

/-- Equality of the resolved rectangle (left, top, width, height) of one
preview element. -/
def sameRect (a b : GeomItem) : Prop :=
  a.left = b.left ∧ a.top = b.top ∧ a.width = b.width ∧ a.height = b.height

/-- Equality of everything except the z-index of one preview element. -/
def sameExceptZ (a b : GeomItem) : Prop :=
  sameRect a b ∧ a.transform = b.transform ∧ a.visible = b.visible

/-- Equality of everything except z-indices across the whole geometry. -/
def samePositions (g1 g2 : Geometry) : Prop :=
  g1.stage_width = g2.stage_width ∧ g1.stage_height = g2.stage_height ∧
  sameExceptZ g1.body g2.body ∧ sameExceptZ g1.backpack g2.backpack ∧
  sameExceptZ g1.overlay g2.overlay ∧ sameExceptZ g1.hand_left g2.hand_left ∧
  sameExceptZ g1.hand_right g2.hand_right ∧
  sameExceptZ g1.feet_left g2.feet_left ∧
  sameExceptZ g1.feet_right g2.feet_right ∧ sameExceptZ g1.front g2.front

/-! ## Model of the missing `skin_creator/export.py`

The export assembler module is imported by `app.py` and
`skin_creator/__init__.py` and exercised by `tests/test_export.py`, but the
module itself is not part of the available source tree, so the sprite-mode
tint adjustment is modelled from the spec. -/

/-- Modelled from the spec: the sprite-naming mode, `Custom` (freshly
generated art with baked-in color) versus `Base` (existing stock sprite
IDs, runtime tints). -/
inductive SpriteMode where
  | Custom
  | Base
deriving DecidableEq

/-- Modelled from the spec: `adjust_tints_for_sprite_mode(tints, mode)`
"forces all tints to `0xffffff` in Custom mode (color is physically baked
into the freshly generated art ...); passes tints through unchanged in
Base mode".  The tints dictionary is embedded as an association list. -/
def adjust_tints_for_sprite_mode (tints : List (String × String))
    (mode : SpriteMode) : List (String × String) :=
  match mode with
  | SpriteMode.Custom => tints.map (fun kv => (kv.1, "0xffffff"))
  | SpriteMode.Base => tints

/-! ## Supporting lemmas about the hex machinery -/

theorem dropWhile_eq_self_of {α} (p : α → Bool) (l : List α)
    (h : ∀ c ∈ l, p c = false) : l.dropWhile p = l := by
  cases l with
  | nil => rfl
  | cons a t => simp [List.dropWhile_cons, h a (by simp)]

theorem pyStrip_eq_self (l : List Char) (h : ∀ c ∈ l, pyIsSpace c = false) :
    pyStrip l = l := by
  unfold pyStrip
  rw [dropWhile_eq_self_of _ _ h, dropWhile_eq_self_of, List.reverse_reverse]
  intro c hc
  exact h c (List.mem_reverse.mp hc)

theorem hexDigitVal_spec (c : Char) (v : Nat) (h : hexDigitVal c = some v) :
    v < 16 ∧ pyIsSpace c = false ∧ c ≠ '+' ∧ c ≠ '-' ∧ c ≠ '_' ∧ c ≠ 'x' ∧
      c ≠ 'X' ∧ c ≠ '#' ∧ hexDigitChar v = asciiToLower c := by
  have h43 : ('+').toNat = 43 := rfl
  have h45 : ('-').toNat = 45 := rfl
  have h95 : ('_').toNat = 95 := rfl
  have h120 : ('x').toNat = 120 := rfl
  have h88 : ('X').toNat = 88 := rfl
  have h35 : ('#').toNat = 35 := rfl
  unfold hexDigitVal at h
  split at h
  case isTrue h1 =>
    simp only [Option.some.injEq] at h
    subst h
    refine ⟨by omega, by simp [pyIsSpace]; omega, ?_, ?_, ?_, ?_, ?_, ?_, ?_⟩
    · intro hEq; rw [hEq] at h1; omega
    · intro hEq; rw [hEq] at h1; omega
    · intro hEq; rw [hEq] at h1; omega
    · intro hEq; rw [hEq] at h1; omega
    · intro hEq; rw [hEq] at h1; omega
    · intro hEq; rw [hEq] at h1; omega
    · rw [hexDigitChar, if_pos (by omega), asciiToLower, if_neg (by omega),
        show 48 + (c.toNat - 48) = c.toNat by omega]
      exact Char.ofNat_toNat c
  case isFalse h1 =>
    split at h
    case isTrue h2 =>
      simp only [Option.some.injEq] at h
      subst h
      refine ⟨by omega, by simp [pyIsSpace]; omega, ?_, ?_, ?_, ?_, ?_, ?_, ?_⟩
      · intro hEq; rw [hEq] at h2; omega
      · intro hEq; rw [hEq] at h2; omega
      · intro hEq; rw [hEq] at h2; omega
      · intro hEq; rw [hEq] at h2; omega
      · intro hEq; rw [hEq] at h2; omega
      · intro hEq; rw [hEq] at h2; omega
      · rw [hexDigitChar, if_neg (by omega), asciiToLower, if_neg (by omega),
          show 87 + (c.toNat - 87) = c.toNat by omega]
        exact Char.ofNat_toNat c
    case isFalse h2 =>
      split at h
      case isTrue h3 =>
        simp only [Option.some.injEq] at h
        subst h
        refine ⟨by omega, by simp [pyIsSpace]; omega, ?_, ?_, ?_, ?_, ?_, ?_, ?_⟩
        · intro hEq; rw [hEq] at h3; omega
        · intro hEq; rw [hEq] at h3; omega
        · intro hEq; rw [hEq] at h3; omega
        · intro hEq; rw [hEq] at h3; omega
        · intro hEq; rw [hEq] at h3; omega
        · intro hEq; rw [hEq] at h3; omega
        · rw [hexDigitChar, if_neg (by omega), asciiToLower, if_pos (by omega),
            show 87 + (c.toNat - 55) = c.toNat + 32 by omega]
      case isFalse h3 => exact absurd h (by simp)

/-- `int(_, 16)` on a two-hex-digit character pair. -/
theorem pyIntHex16_pair (c0 c1 : Char) (v0 v1 : Nat)
    (h0 : hexDigitVal c0 = some v0) (h1 : hexDigitVal c1 = some v1) :
    pyIntHex16 [c0, c1] = some (Int.ofNat (v0 * 16 + v1)) := by
  obtain ⟨-, hs0, hp0, hm0, hu0, hx0, hX0, -, -⟩ := hexDigitVal_spec c0 v0 h0
  obtain ⟨-, hs1, -, -, hu1, hx1, hX1, -, -⟩ := hexDigitVal_spec c1 v1 h1
  have hstrip : pyStrip [c0, c1] = [c0, c1] := by
    apply pyStrip_eq_self
    intro c hc
    rcases List.mem_pair.mp hc with rfl | rfl
    · exact hs0
    · exact hs1
  simp [pyIntHex16, hstrip, hexBody, hexDigits, hexCore, hp0, hm0, hu1,
    hx1, hX1, h0, h1]

/-- The digit loop with positive fuel on a value below 16. -/
theorem natHexReprAux_small (fuel n : Nat) (h : n < 16) (hf : 0 < fuel) :
    natHexReprAux fuel n = [hexDigitChar n] := by
  cases fuel with
  | zero => omega
  | succ m => simp [natHexReprAux, h]

/-- `natHexRepr` on a value below 16 is a single digit. -/
theorem natHexRepr_small (n : Nat) (h : n < 16) :
    natHexRepr n = [hexDigitChar n] :=
  natHexReprAux_small (n + 1) n h (by omega)

/-- `natHexRepr` on a two-digit value. -/
theorem natHexRepr_two (n : Nat) (h16 : 16 ≤ n) (h256 : n < 256) :
    natHexRepr n = [hexDigitChar (n / 16), hexDigitChar (n % 16)] := by
  rw [show natHexRepr n = if n < 16 then [hexDigitChar n]
      else natHexReprAux n (n / 16) ++ [hexDigitChar (n % 16)] from rfl]
  rw [if_neg (by omega), natHexReprAux_small n (n / 16) (by omega) (by omega)]
  rfl

/-- Python `f"{_:02x}"` of a byte `v0 * 16 + v1` is the two digits. -/
theorem fmt02x_byte (v0 v1 : Nat) (h0 : v0 < 16) (h1 : v1 < 16) :
    fmt02x (Int.ofNat (v0 * 16 + v1)) = [hexDigitChar v0, hexDigitChar v1] := by
  unfold fmt02x
  rw [if_neg (by simp only [Int.ofNat_eq_coe]; omega),
    show (Int.ofNat (v0 * 16 + v1)).toNat = v0 * 16 + v1 from rfl]
  by_cases hz : v0 = 0
  · subst hz
    rw [show 0 * 16 + v1 = v1 by omega, natHexRepr_small v1 h1]
    simp [hexDigitChar]
  · rw [natHexRepr_two (v0 * 16 + v1) (by omega) (by omega),
      show (v0 * 16 + v1) / 16 = v0 by omega,
      show (v0 * 16 + v1) % 16 = v1 by omega]
    rfl

/-- `fmt02x` of a clamped byte value is two lowercase hex digits. -/
theorem fmt02x_range (n : Int) (h0 : 0 ≤ n) (h255 : n ≤ 255) :
    ∃ d0 d1, fmt02x n = [d0, d1] ∧ isLowerHexDigit d0 = true ∧
      isLowerHexDigit d1 = true := by
  have hmap : ∀ v : Nat, v < 16 → isLowerHexDigit (hexDigitChar v) = true := by decide
  have e : n.toNat / 16 * 16 + n.toNat % 16 = n.toNat := by omega
  have hn : Int.ofNat (n.toNat / 16 * 16 + n.toNat % 16) = n := by
    rw [e]; simp only [Int.ofNat_eq_coe]; omega
  refine ⟨hexDigitChar (n.toNat / 16), hexDigitChar (n.toNat % 16), ?_,
    hmap _ (by omega), hmap _ (by omega)⟩
  conv_lhs => rw [← hn]
  rw [fmt02x_byte _ _ (by omega) (by omega)]

/-- Every string of length six splits into six characters. -/
theorem list_len_six {α} (l : List α) (h : l.length = 6) :
    ∃ a0 a1 a2 a3 a4 a5, l = [a0, a1, a2, a3, a4, a5] := by
  obtain ⟨a0, l0, rfl⟩ := List.exists_of_length_succ l h
  simp only [List.length_cons, Nat.succ.injEq] at h
  obtain ⟨a1, l1, rfl⟩ := List.exists_of_length_succ l0 h
  simp only [List.length_cons, Nat.succ.injEq] at h
  obtain ⟨a2, l2, rfl⟩ := List.exists_of_length_succ l1 h
  simp only [List.length_cons, Nat.succ.injEq] at h
  obtain ⟨a3, l3, rfl⟩ := List.exists_of_length_succ l2 h
  simp only [List.length_cons, Nat.succ.injEq] at h
  obtain ⟨a4, l4, rfl⟩ := List.exists_of_length_succ l3 h
  simp only [List.length_cons, Nat.succ.injEq] at h
  obtain ⟨a5, l5, rfl⟩ := List.exists_of_length_succ l4 h
  simp only [List.length_cons, Nat.succ.injEq, List.length_eq_zero] at h
  exact ⟨a0, a1, a2, a3, a4, a5, by rw [h]⟩

/-- Under well-formedness, `hex_str.strip().lstrip("#")` is exactly the
string with one leading `'#'` removed. -/
theorem hexClean_of_digits (s : String)
    (hlen : (hashStripped s.data).length = 6)
    (hall : ∀ c ∈ hashStripped s.data, (hexDigitVal c).isSome) :
    hexClean s = hashStripped s.data := by
  cases hd : s.data with
  | nil => rw [hd] at hlen; simp [hashStripped] at hlen
  | cons c rest =>
    rw [hd] at hlen hall
    simp only [hashStripped] at hlen hall ⊢
    unfold hexClean
    rw [hd]
    by_cases hc : c = '#'
    · rw [if_pos hc] at hlen hall ⊢
      subst hc
      have hnospace : ∀ a ∈ '#' :: rest, pyIsSpace a = false := by
        intro a ha
        rcases List.mem_cons.mp ha with rfl | ha
        · rfl
        · obtain ⟨v, hv⟩ := Option.isSome_iff_exists.mp (hall a ha)
          exact (hexDigitVal_spec a v hv).2.1
      rw [pyStrip_eq_self _ hnospace]
      unfold lstripHash
      rw [List.dropWhile_cons, if_pos (by simp)]
      apply dropWhile_eq_self_of
      intro a ha
      obtain ⟨v, hv⟩ := Option.isSome_iff_exists.mp (hall a ha)
      simp [(hexDigitVal_spec a v hv).2.2.2.2.2.2.2.1]
    · rw [if_neg hc] at hlen hall ⊢
      have hnospace : ∀ a ∈ c :: rest, pyIsSpace a = false := by
        intro a ha
        obtain ⟨v, hv⟩ := Option.isSome_iff_exists.mp (hall a ha)
        exact (hexDigitVal_spec a v hv).2.1
      rw [pyStrip_eq_self _ hnospace]
      unfold lstripHash
      rw [List.dropWhile_cons, if_neg (by simp [hc])]

/-- `hex_to_rgb` on six parsed digit characters. -/
theorem hex_to_rgb_of_digits (s : String) (c0 c1 c2 c3 c4 c5 : Char)
    (v0 v1 v2 v3 v4 v5 : Nat)
    (hc : hexClean s = [c0, c1, c2, c3, c4, c5])
    (h0 : hexDigitVal c0 = some v0) (h1 : hexDigitVal c1 = some v1)
    (h2 : hexDigitVal c2 = some v2) (h3 : hexDigitVal c3 = some v3)
    (h4 : hexDigitVal c4 = some v4) (h5 : hexDigitVal c5 = some v5) :
    hex_to_rgb s = some (Int.ofNat (v0 * 16 + v1), Int.ofNat (v2 * 16 + v3),
      Int.ofNat (v4 * 16 + v5)) := by
  have hs0 : pySlice [c0, c1, c2, c3, c4, c5] 0 2 = [c0, c1] := rfl
  have hs1 : pySlice [c0, c1, c2, c3, c4, c5] 2 4 = [c2, c3] := rfl
  have hs2 : pySlice [c0, c1, c2, c3, c4, c5] 4 6 = [c4, c5] := rfl
  simp only [hex_to_rgb, hc, hs0, hs1, hs2, pyIntHex16_pair c0 c1 v0 v1 h0 h1,
    pyIntHex16_pair c2 c3 v2 v3 h2 h3, pyIntHex16_pair c4 c5 v4 v5 h4 h5]

/-- `round()` of an exact integer is that integer. -/
theorem pyRound_intCast (n : Int) : pyRound (n : ℚ) = n := by
  unfold pyRound
  rw [Int.floor_intCast]
  norm_num

/-- `clamp_byte` of an in-range integer is the identity. -/
theorem clamp_byte_intCast (n : Int) (h0 : 0 ≤ n) (h255 : n ≤ 255) :
    clamp_byte (n : ℚ) = n := by
  unfold clamp_byte
  rw [pyRound_intCast, min_eq_right h255, max_eq_right h0]

/-- `clamp_byte` always lands in the byte range. -/
theorem clamp_byte_range (q : ℚ) : 0 ≤ clamp_byte q ∧ clamp_byte q ≤ 255 := by
  unfold clamp_byte
  exact ⟨le_max_left 0 _, max_le (by norm_num) (min_le_left _ _)⟩

/-- `fmt02x` of any clamped channel is two lowercase hex digits. -/
theorem fmt02x_clamp (q : ℚ) :
    ∃ d0 d1, fmt02x (clamp_byte q) = [d0, d1] ∧ isLowerHexDigit d0 = true ∧
      isLowerHexDigit d1 = true :=
  fmt02x_range _ (clamp_byte_range q).1 (clamp_byte_range q).2

/-- A lowercase hex digit character round-trips through `hexDigitVal`. -/
theorem isLowerHexDigit_val (c : Char) (h : isLowerHexDigit c = true) :
    ∃ v, hexDigitVal c = some v ∧ hexDigitChar v = c := by
  unfold isLowerHexDigit at h
  simp only [Bool.or_eq_true, Bool.and_eq_true, decide_eq_true_eq] at h
  rcases h with ⟨ha, hb⟩ | ⟨ha, hb⟩
  · refine ⟨c.toNat - 48, ?_, ?_⟩
    · unfold hexDigitVal
      rw [if_pos (by omega)]
    · unfold hexDigitChar
      rw [if_pos (by omega), show 48 + (c.toNat - 48) = c.toNat by omega]
      exact Char.ofNat_toNat c
  · refine ⟨c.toNat - 87, ?_, ?_⟩
    · unfold hexDigitVal
      rw [if_neg (by omega), if_pos (by omega)]
    · unfold hexDigitChar
      rw [if_neg (by omega), show 87 + (c.toNat - 87) = c.toNat by omega]
      exact Char.ofNat_toNat c

/-- A membership carried back through `pyStrip`. -/
theorem mem_pyStrip {c : Char} {l : List Char} (h : c ∈ pyStrip l) : c ∈ l := by
  unfold pyStrip at h
  have h1 := List.mem_reverse.mp h
  have h2 := (List.dropWhile_sublist _).subset h1
  have h3 := List.mem_reverse.mp h2
  exact (List.dropWhile_sublist _).subset h3

/-- Decomposition of a well-formed color string into its six digit
characters and their values, and the resulting `hex_to_rgb` value. -/
theorem wf6_decomp (s : String) (h : wellFormed6 s = true) :
    ∃ c0 c1 c2 c3 c4 c5 v0 v1 v2 v3 v4 v5,
      hashStripped s.data = [c0, c1, c2, c3, c4, c5] ∧
      hexClean s = [c0, c1, c2, c3, c4, c5] ∧
      hexDigitVal c0 = some v0 ∧ hexDigitVal c1 = some v1 ∧
      hexDigitVal c2 = some v2 ∧ hexDigitVal c3 = some v3 ∧
      hexDigitVal c4 = some v4 ∧ hexDigitVal c5 = some v5 ∧
      hex_to_rgb s = some (Int.ofNat (v0 * 16 + v1), Int.ofNat (v2 * 16 + v3),
        Int.ofNat (v4 * 16 + v5)) := by
  unfold wellFormed6 at h
  simp only [Bool.and_eq_true, decide_eq_true_eq, List.all_eq_true] at h
  obtain ⟨hlen, hall⟩ := h
  have hclean := hexClean_of_digits s hlen (fun c hc => hall c hc)
  obtain ⟨c0, c1, c2, c3, c4, c5, hsix⟩ := list_len_six _ hlen
  rw [hsix] at hclean hall
  have get : ∀ c ∈ [c0, c1, c2, c3, c4, c5], ∃ v, hexDigitVal c = some v := by
    intro c hc
    exact Option.isSome_iff_exists.mp (hall c hc)
  obtain ⟨v0, h0⟩ := get c0 (by simp)
  obtain ⟨v1, h1⟩ := get c1 (by simp)
  obtain ⟨v2, h2⟩ := get c2 (by simp)
  obtain ⟨v3, h3⟩ := get c3 (by simp)
  obtain ⟨v4, h4⟩ := get c4 (by simp)
  obtain ⟨v5, h5⟩ := get c5 (by simp)
  exact ⟨c0, c1, c2, c3, c4, c5, v0, v1, v2, v3, v4, v5, hsix, hclean,
    h0, h1, h2, h3, h4, h5,
    hex_to_rgb_of_digits s c0 c1 c2 c3 c4 c5 v0 v1 v2 v3 v4 v5 hclean
      h0 h1 h2 h3 h4 h5⟩

/-- Bounds of a re-assembled byte. -/
theorem byte_bounds (v w : Nat) (hv : v < 16) (hw : w < 16) :
    0 ≤ Int.ofNat (v * 16 + w) ∧ Int.ofNat (v * 16 + w) ≤ 255 := by
  constructor <;> (simp only [Int.ofNat_eq_coe]; omega)

/-- `clamp_byte` at the rational literal `0`. -/
theorem clamp_byte_num0 : clamp_byte (0 : ℚ) = 0 := by
  simpa using clamp_byte_intCast 0 (by norm_num) (by norm_num)

/-- `clamp_byte` at the rational literal `255`. -/
theorem clamp_byte_num255 : clamp_byte (255 : ℚ) = (255 : ℤ) := by
  simpa using clamp_byte_intCast 255 (by norm_num) (by norm_num)

/-- `lighten` with amount `0` re-encodes the parsed color: the canonical
lowercase form of the input. -/
theorem lighten_zero_canon (x : String) (h : wellFormed6 x = true) :
    lighten x 0 = some ("#" ++ strToLower (stripHash x)) := by
  obtain ⟨c0, c1, c2, c3, c4, c5, v0, v1, v2, v3, v4, v5, hbody, hclean,
    h0, h1, h2, h3, h4, h5, hrgb⟩ := wf6_decomp x h
  have hv0 := (hexDigitVal_spec _ _ h0).1
  have hv1 := (hexDigitVal_spec _ _ h1).1
  have hv2 := (hexDigitVal_spec _ _ h2).1
  have hv3 := (hexDigitVal_spec _ _ h3).1
  have hv4 := (hexDigitVal_spec _ _ h4).1
  have hv5 := (hexDigitVal_spec _ _ h5).1
  have ch0 := (hexDigitVal_spec _ _ h0).2.2.2.2.2.2.2.2
  have ch1 := (hexDigitVal_spec _ _ h1).2.2.2.2.2.2.2.2
  have ch2 := (hexDigitVal_spec _ _ h2).2.2.2.2.2.2.2.2
  have ch3 := (hexDigitVal_spec _ _ h3).2.2.2.2.2.2.2.2
  have ch4 := (hexDigitVal_spec _ _ h4).2.2.2.2.2.2.2.2
  have ch5 := (hexDigitVal_spec _ _ h5).2.2.2.2.2.2.2.2
  unfold lighten
  rw [hrgb]
  simp only [Option.map_some', Option.some.injEq, mul_zero, add_zero]
  rw [clamp_byte_intCast _ (byte_bounds v0 v1 hv0 hv1).1 (byte_bounds v0 v1 hv0 hv1).2,
    clamp_byte_intCast _ (byte_bounds v2 v3 hv2 hv3).1 (byte_bounds v2 v3 hv2 hv3).2,
    clamp_byte_intCast _ (byte_bounds v4 v5 hv4 hv5).1 (byte_bounds v4 v5 hv4 hv5).2,
    fmt02x_byte v0 v1 hv0 hv1, fmt02x_byte v2 v3 hv2 hv3,
    fmt02x_byte v4 v5 hv4 hv5, ch0, ch1, ch2, ch3, ch4, ch5]
  unfold stripHash strToLower
  rw [hbody]
  rfl

/-- `darken` with amount `0` re-encodes the parsed color likewise. -/
theorem darken_zero_canon (x : String) (h : wellFormed6 x = true) :
    darken x 0 = some ("#" ++ strToLower (stripHash x)) := by
  obtain ⟨c0, c1, c2, c3, c4, c5, v0, v1, v2, v3, v4, v5, hbody, hclean,
    h0, h1, h2, h3, h4, h5, hrgb⟩ := wf6_decomp x h
  have hv0 := (hexDigitVal_spec _ _ h0).1
  have hv1 := (hexDigitVal_spec _ _ h1).1
  have hv2 := (hexDigitVal_spec _ _ h2).1
  have hv3 := (hexDigitVal_spec _ _ h3).1
  have hv4 := (hexDigitVal_spec _ _ h4).1
  have hv5 := (hexDigitVal_spec _ _ h5).1
  have ch0 := (hexDigitVal_spec _ _ h0).2.2.2.2.2.2.2.2
  have ch1 := (hexDigitVal_spec _ _ h1).2.2.2.2.2.2.2.2
  have ch2 := (hexDigitVal_spec _ _ h2).2.2.2.2.2.2.2.2
  have ch3 := (hexDigitVal_spec _ _ h3).2.2.2.2.2.2.2.2
  have ch4 := (hexDigitVal_spec _ _ h4).2.2.2.2.2.2.2.2
  have ch5 := (hexDigitVal_spec _ _ h5).2.2.2.2.2.2.2.2
  unfold darken
  rw [hrgb]
  simp only [Option.map_some', Option.some.injEq, sub_zero, mul_one]
  rw [clamp_byte_intCast _ (byte_bounds v0 v1 hv0 hv1).1 (byte_bounds v0 v1 hv0 hv1).2,
    clamp_byte_intCast _ (byte_bounds v2 v3 hv2 hv3).1 (byte_bounds v2 v3 hv2 hv3).2,
    clamp_byte_intCast _ (byte_bounds v4 v5 hv4 hv5).1 (byte_bounds v4 v5 hv4 hv5).2,
    fmt02x_byte v0 v1 hv0 hv1, fmt02x_byte v2 v3 hv2 hv3,
    fmt02x_byte v4 v5 hv4 hv5, ch0, ch1, ch2, ch3, ch4, ch5]
  unfold stripHash strToLower
  rw [hbody]
  rfl

/-- `lighten` with amount `1` saturates every channel to 255. -/
theorem lighten_one_white (x : String) (h : wellFormed6 x = true) :
    lighten x 1 = some "#ffffff" := by
  obtain ⟨c0, c1, c2, c3, c4, c5, v0, v1, v2, v3, v4, v5, hbody, hclean,
    h0, h1, h2, h3, h4, h5, hrgb⟩ := wf6_decomp x h
  have e : ∀ a : ℚ, a + (255 - a) * 1 = (255 : ℚ) := by intro a; ring
  unfold lighten
  rw [hrgb]
  simp only [Option.map_some', Option.some.injEq]
  rw [e, e, e, clamp_byte_num255]
  rfl

/-- `darken` with amount `1` zeroes every channel. -/
theorem darken_one_black (x : String) (h : wellFormed6 x = true) :
    darken x 1 = some "#000000" := by
  obtain ⟨c0, c1, c2, c3, c4, c5, v0, v1, v2, v3, v4, v5, hbody, hclean,
    h0, h1, h2, h3, h4, h5, hrgb⟩ := wf6_decomp x h
  have e : ∀ a : ℚ, a * (1 - 1) = (0 : ℚ) := by intro a; ring
  unfold darken
  rw [hrgb]
  simp only [Option.map_some', Option.some.injEq]
  rw [e, e, e, clamp_byte_num0]
  rfl

/-- Any input whose cleaned form is shorter than five characters makes the
third slice of `hex_to_rgb` empty, which `int(_, 16)` rejects. -/
theorem hex_to_rgb_short_input_fails (s : String)
    (h : (hexClean s).length < 5) : hex_to_rgb s = none := by
  have h46 : pySlice (hexClean s) 4 6 = [] := by
    unfold pySlice
    rw [List.drop_eq_nil_of_le (by omega)]
    rfl
  simp only [hex_to_rgb, h46]
  cases pyIntHex16 (pySlice (hexClean s) 0 2) <;>
    cases pyIntHex16 (pySlice (hexClean s) 2 4) <;> rfl

/-! ## Claim theorems -/

/-- C1 (amended): for every well-formed 6-hex-digit color `c`,
`lighten(c, 0)` and `darken(c, 0)` return the canonical lowercase
re-encoding `"#" + lowercase(strip(c, "#"))` — which is `c` itself exactly
when `c` is already in that canonical form — while `lighten(c, 1)` returns
`"#ffffff"` and `darken(c, 1)` returns `"#000000"`. -/
theorem lighten_darken_endpoints (c : String) (h : wellFormed6 c = true) :
    lighten c 0 = some ("#" ++ strToLower (stripHash c)) ∧
    darken c 0 = some ("#" ++ strToLower (stripHash c)) ∧
    lighten c 1 = some "#ffffff" ∧
    darken c 1 = some "#000000" :=
  ⟨lighten_zero_canon c h, darken_zero_canon c h, lighten_one_white c h,
    darken_one_black c h⟩

/-- C1 witness: the amended claim at the concrete color `"#3fa0Bc"`. -/
theorem lighten_darken_endpoints_witness :
    wellFormed6 "#3fa0Bc" = true ∧
      (lighten "#3fa0Bc" 0 = some ("#" ++ strToLower (stripHash "#3fa0Bc")) ∧
       darken "#3fa0Bc" 0 = some ("#" ++ strToLower (stripHash "#3fa0Bc")) ∧
       lighten "#3fa0Bc" 1 = some "#ffffff" ∧
       darken "#3fa0Bc" 1 = some "#000000") :=
  ⟨by decide, lighten_darken_endpoints "#3fa0Bc" (by decide)⟩

/-- C1 counterexample: `lighten("#FF0000", 0)` returns `"#ff0000"`, not the
input `"#FF0000"` itself, so `lighten(c, 0) == c` fails on well-formed
colors that are not already lowercase. -/
theorem lighten_zero_not_identity :
    wellFormed6 "#FF0000" = true ∧ lighten "#FF0000" 0 = some "#ff0000" ∧
      ("#ff0000" : String) ≠ "#FF0000" := by
  refine ⟨by decide, ?_, by decide⟩
  have hgen := lighten_zero_canon "#FF0000" (by decide)
  rw [show ("#" ++ strToLower (stripHash "#FF0000")) = "#ff0000" from by decide]
    at hgen
  exact hgen

/-- C2: for every well-formed 6-hex-digit color `x` (leading `'#'`
optional, any letter case), `rgb_to_ts_hex (hex_to_rgb x)` is `"0x"`
followed by the lowercased six digits of `x` with the `'#'` stripped. -/
theorem rgb_ts_hex_round_trip (x : String) (h : wellFormed6 x = true) :
    (hex_to_rgb x).map rgb_to_ts_hex = some ("0x" ++ strToLower (stripHash x)) := by
  obtain ⟨c0, c1, c2, c3, c4, c5, v0, v1, v2, v3, v4, v5, hbody, hclean,
    h0, h1, h2, h3, h4, h5, hrgb⟩ := wf6_decomp x h
  have hv0 := (hexDigitVal_spec _ _ h0).1
  have hv1 := (hexDigitVal_spec _ _ h1).1
  have hv2 := (hexDigitVal_spec _ _ h2).1
  have hv3 := (hexDigitVal_spec _ _ h3).1
  have hv4 := (hexDigitVal_spec _ _ h4).1
  have hv5 := (hexDigitVal_spec _ _ h5).1
  have ch0 := (hexDigitVal_spec _ _ h0).2.2.2.2.2.2.2.2
  have ch1 := (hexDigitVal_spec _ _ h1).2.2.2.2.2.2.2.2
  have ch2 := (hexDigitVal_spec _ _ h2).2.2.2.2.2.2.2.2
  have ch3 := (hexDigitVal_spec _ _ h3).2.2.2.2.2.2.2.2
  have ch4 := (hexDigitVal_spec _ _ h4).2.2.2.2.2.2.2.2
  have ch5 := (hexDigitVal_spec _ _ h5).2.2.2.2.2.2.2.2
  rw [hrgb]
  simp only [Option.map_some', Option.some.injEq]
  unfold rgb_to_ts_hex
  rw [show (Int.ofNat (v0 * 16 + v1), Int.ofNat (v2 * 16 + v3),
      Int.ofNat (v4 * 16 + v5)).1 = Int.ofNat (v0 * 16 + v1) from rfl,
    show (Int.ofNat (v0 * 16 + v1), Int.ofNat (v2 * 16 + v3),
      Int.ofNat (v4 * 16 + v5)).2.1 = Int.ofNat (v2 * 16 + v3) from rfl,
    show (Int.ofNat (v0 * 16 + v1), Int.ofNat (v2 * 16 + v3),
      Int.ofNat (v4 * 16 + v5)).2.2 = Int.ofNat (v4 * 16 + v5) from rfl,
    fmt02x_byte v0 v1 hv0 hv1, fmt02x_byte v2 v3 hv2 hv3,
    fmt02x_byte v4 v5 hv4 hv5, ch0, ch1, ch2, ch3, ch4, ch5]
  unfold stripHash strToLower
  rw [hbody]
  rfl

/-- C2 witness: the round trip at the concrete color `"#AbC123"`. -/
theorem rgb_ts_hex_round_trip_witness :
    wellFormed6 "#AbC123" = true ∧
      (hex_to_rgb "#AbC123").map rgb_to_ts_hex =
        some ("0x" ++ strToLower (stripHash "#AbC123")) :=
  ⟨by decide, rgb_ts_hex_round_trip "#AbC123" (by decide)⟩

/-- C5: a skin name with no ASCII-alphanumeric character (empty and
whitespace-only names included) sanitizes to the fixed identifier
`"Custom"`. -/
theorem sanitize_no_alnum_fallback (name : String)
    (h : ∀ c ∈ name.data, isAsciiAlnum c = false) : sanitize name = "Custom" := by
  have hfil : (pyStrip name.data).filter isAsciiAlnum = [] := by
    rw [List.filter_eq_nil_iff]
    intro a ha
    simp [h a (mem_pyStrip ha)]
  simp [sanitize, hfil]

/-- C5 witness: the fallback at the concrete names `" !?*- "` and `""`. -/
theorem sanitize_no_alnum_fallback_witness :
    ((∀ c ∈ (" !?*- " : String).data, isAsciiAlnum c = false) ∧
      sanitize " !?*- " = "Custom") ∧
    ((∀ c ∈ ("" : String).data, isAsciiAlnum c = false) ∧
      sanitize "" = "Custom") :=
  ⟨⟨by decide, sanitize_no_alnum_fallback " !?*- " (by decide)⟩,
   ⟨by decide, sanitize_no_alnum_fallback "" (by decide)⟩⟩

/-- C6 (amended): `hex_to_rgb` rejects every input whose cleaned form is
shorter than five characters, but it does not validate its input in
general: on malformed inputs whose 2-character slices still parse (wrong
length with ≥ 5 leading hex digits, trailing garbage beyond six digits) it
returns a best-effort result instead of failing. -/
theorem hex_to_rgb_error_behavior (s : String)
    (h : (hexClean s).length < 5) : hex_to_rgb s = none :=
  hex_to_rgb_short_input_fails s h

/-- C6 witness: the amended failure condition at the concrete input `"#ff"`. -/
theorem hex_to_rgb_error_behavior_witness :
    (hexClean "#ff").length < 5 ∧ hex_to_rgb "#ff" = none :=
  ⟨by decide, hex_to_rgb_error_behavior "#ff" (by decide)⟩

/-- C6 counterexample: the malformed 5-digit input `"fffff"` does not make
`hex_to_rgb` fail; it returns the best-effort value `(255, 255, 15)` parsed
from the slices `"ff"`, `"ff"`, `"f"`. -/
theorem hex_to_rgb_malformed_no_error :
    wellFormed6 "fffff" = false ∧ hex_to_rgb "fffff" = some (255, 255, 15) ∧
      hex_to_rgb "fffff" ≠ none := by
  refine ⟨by decide, by decide, ?_⟩
  intro hcontra
  rw [show hex_to_rgb "fffff" = some (255, 255, 15) from by decide] at hcontra
  exact Option.noConfusion hcontra

/-- C10: for every well-formed color input and arbitrary rational amount
(also outside `[0, 1]`), `lighten` and `darken` return `'#'` followed by
exactly six lowercase hex digits, because every channel is clamped to
`[0, 255]` before re-encoding. -/
theorem lighten_darken_always_canonical (s : String) (a : ℚ)
    (h : wellFormed6 s = true) :
    ∃ t u, lighten s a = some t ∧ darken s a = some u ∧
      isCanonicalHexColor t = true ∧ isCanonicalHexColor u = true := by
  obtain ⟨c0, c1, c2, c3, c4, c5, v0, v1, v2, v3, v4, v5, hbody, hclean,
    h0, h1, h2, h3, h4, h5, hrgb⟩ := wf6_decomp s h
  have key : ∀ q1 q2 q3 : ℚ,
      isCanonicalHexColor ⟨'#' :: (fmt02x (clamp_byte q1) ++
        fmt02x (clamp_byte q2) ++ fmt02x (clamp_byte q3))⟩ = true := by
    intro q1 q2 q3
    obtain ⟨d0, d1, hf1, hl0, hl1⟩ := fmt02x_clamp q1
    obtain ⟨d2, d3, hf2, hl2, hl3⟩ := fmt02x_clamp q2
    obtain ⟨d4, d5, hf3, hl4, hl5⟩ := fmt02x_clamp q3
    rw [hf1, hf2, hf3]
    simp [isCanonicalHexColor, hl0, hl1, hl2, hl3, hl4, hl5]
  unfold lighten darken
  rw [hrgb]
  simp only [Option.map_some']
  exact ⟨_, _, rfl, rfl, key _ _ _, key _ _ _⟩

/-- C10 witness: clamped re-encoding at the concrete color `"#808080"` and
the out-of-range amount `7/2`. -/
theorem lighten_darken_always_canonical_witness :
    wellFormed6 "#808080" = true ∧
      ∃ t u, lighten "#808080" (7 / 2) = some t ∧
        darken "#808080" (7 / 2) = some u ∧
        isCanonicalHexColor t = true ∧ isCanonicalHexColor u = true :=
  ⟨by decide, lighten_darken_always_canonical "#808080" (7 / 2) (by decide)⟩

/-- C3 (spec-modelled): `adjustTintsForSpriteMode` maps every tint value to
`"0xffffff"` under Custom mode regardless of the input values (keys kept in
order), and returns the input map unchanged under Base mode. -/
theorem adjust_tints_for_sprite_mode_spec (tints : List (String × String)) :
    (∀ kv ∈ adjust_tints_for_sprite_mode tints SpriteMode.Custom,
      kv.2 = "0xffffff") ∧
    (adjust_tints_for_sprite_mode tints SpriteMode.Custom).map Prod.fst =
      tints.map Prod.fst ∧
    adjust_tints_for_sprite_mode tints SpriteMode.Base = tints := by
  refine ⟨?_, ?_, rfl⟩
  · intro kv hkv
    simp only [adjust_tints_for_sprite_mode, List.mem_map] at hkv
    obtain ⟨p, -, rfl⟩ := hkv
    rfl
  · simp [adjust_tints_for_sprite_mode]

/-- C3 witness: the tint adjustment at a concrete two-entry tint map. -/
theorem adjust_tints_for_sprite_mode_spec_witness :
    (∀ kv ∈ adjust_tints_for_sprite_mode
        [("base", "0x123456"), ("backpack", "0x816537")] SpriteMode.Custom,
      kv.2 = "0xffffff") ∧
    (adjust_tints_for_sprite_mode
        [("base", "0x123456"), ("backpack", "0x816537")]
        SpriteMode.Custom).map Prod.fst =
      [("base", "0x123456"), ("backpack", "0x816537")].map Prod.fst ∧
    adjust_tints_for_sprite_mode
        [("base", "0x123456"), ("backpack", "0x816537")] SpriteMode.Base =
      [("base", "0x123456"), ("backpack", "0x816537")] :=
  adjust_tints_for_sprite_mode_spec [("base", "0x123456"), ("backpack", "0x816537")]

/-- C4: the resolved body rectangle is unaffected by the hand/feet offset
fields, and toggling `hands_above_body` / `feet_above_body` /
`overlay_above_body` leaves every element's left, top, width, height
(and transform and visibility) unchanged — only z-indices may move. -/
theorem preview_geometry_invariances (layout : PreviewLayout) (front : Front)
    (hx hy fx fy : Int) (hb fb ob : Bool) :
    sameRect
      (compute_preview_geometry
        { layout with hand_offset_x := hx, hand_offset_y := hy, feet_offset_x := fx, feet_offset_y := fy }
        front).body
      (compute_preview_geometry layout front).body ∧
    samePositions
      (compute_preview_geometry
        { layout with hands_above_body := hb, feet_above_body := fb, overlay_above_body := ob }
        front)
      (compute_preview_geometry layout front) := by
  refine ⟨⟨rfl, rfl, rfl, rfl⟩, rfl, rfl, ?_, ?_, ?_, ?_, ?_, ?_, ?_, ?_⟩ <;>
    exact ⟨⟨rfl, rfl, rfl, rfl⟩, rfl, rfl⟩

/-- C7: `build_fill` with Solid returns empty defs and the primary color;
the stripe styles delegate to `def_stripes` with the provided angle
(Diagonal), `0` (Horizontal), `90` (Vertical); and the stripe tile markup
has pattern width and height both `2 * gap` and a `rotate(angle)`
transform. -/
theorem build_fill_solid_and_stripes (base secondary extra : String)
    (angle gap : Int) (opacity : ℚ) (size : Int) :
    build_fill "Solid" base secondary extra angle gap opacity size = ("", base) ∧
    build_fill "Diagonal Stripes" base secondary extra angle gap opacity size =
      (def_stripes "ds" base extra gap angle opacity, "url(#ds)") ∧
    build_fill "Horizontal Stripes" base secondary extra angle gap opacity size =
      (def_stripes "hs" base extra gap 0 opacity, "url(#hs)") ∧
    build_fill "Vertical Stripes" base secondary extra angle gap opacity size =
      (def_stripes "vs" base extra gap 90 opacity, "url(#vs)") ∧
    (∀ (id_ stripe : String) (theta : Int), ∃ pre mid post : String,
      def_stripes id_ base stripe gap theta opacity =
        pre ++ ("width=\"" ++ intRepr (2 * gap) ++ "\" height=\"" ++
          intRepr (2 * gap) ++ "\"") ++ mid ++
          ("rotate(" ++ intRepr theta ++ ")") ++ post) := by
  refine ⟨rfl, rfl, rfl, rfl, ?_⟩
  intro id_ stripe theta
  refine ⟨"<defs><pattern id=\"" ++ id_ ++ "\" patternUnits=\"userSpaceOnUse\" ",
    " patternTransform=\"",
    "\">" ++ "<rect width=\"100%\" height=\"100%\" fill=\"" ++ base ++ "\"/>" ++
      "<rect x=\"0\" y=\"0\" width=\"" ++ intRepr gap ++
      "\" height=\"100%\" fill=\"" ++ stripe ++ "\" opacity=\"" ++
      ratRepr opacity ++ "\"/>" ++ "</pattern></defs>", ?_⟩
  rw [show (2 : Int) * gap = gap * 2 from Int.mul_comm 2 gap]
  simp only [def_stripes, String.append_assoc]

/-- C9: a style string that is none of the nine recognized fill styles does
not fail: `build_fill` falls through to empty defs and the base color,
identical to the Solid result. -/
theorem build_fill_unknown_style (style base secondary extra : String)
    (angle gap : Int) (opacity : ℚ) (size : Int)
    (h1 : style ≠ "Solid") (h2 : style ≠ "Linear Gradient")
    (h3 : style ≠ "Radial Gradient") (h4 : style ≠ "Diagonal Stripes")
    (h5 : style ≠ "Horizontal Stripes") (h6 : style ≠ "Vertical Stripes")
    (h7 : style ≠ "Crosshatch") (h8 : style ≠ "Dots")
    (h9 : style ≠ "Checker") :
    build_fill style base secondary extra angle gap opacity size = ("", base) ∧
    build_fill style base secondary extra angle gap opacity size =
      build_fill "Solid" base secondary extra angle gap opacity size := by
  have hmain : build_fill style base secondary extra angle gap opacity size =
      ("", base) := by
    unfold build_fill
    rw [if_neg h1, if_neg h2, if_neg h3, if_neg h4, if_neg h5, if_neg h6,
      if_neg h7, if_neg h8, if_neg h9]
  exact ⟨hmain, by rw [hmain]; rfl⟩

/-- An occurrence of `t` in `A ++ Y` lies wholly in `Y` whenever `A` ends
in a character that does not occur in `t` (so no occurrence can straddle
the boundary) and some character of `t` does not occur in `A` (so no
occurrence fits inside `A`). -/
theorem occurrence_past_left_block (A Y pre post t : List Char) (bnd wit : Char)
    (hEq : A ++ Y = pre ++ t ++ post)
    (hA : ∃ A', A = A' ++ [bnd])
    (hbnd : bnd ∉ t) (hwit : wit ∈ t) (hwitA : wit ∉ A) :
    ∃ pre2, Y = pre2 ++ t ++ post := by
  rw [List.append_assoc pre t post] at hEq
  rcases le_or_lt A.length pre.length with hle | hlt
  · -- the block is a prefix of `pre`: peel it off
    have hL : (A ++ Y).take A.length = A := by
      rw [List.take_append_eq_append_take, List.take_length, Nat.sub_self,
        List.take_zero, List.append_nil]
    have hR : (pre ++ (t ++ post)).take A.length = pre.take A.length := by
      rw [List.take_append_eq_append_take, Nat.sub_eq_zero_of_le hle,
        List.take_zero, List.append_nil]
    have h1 : A = pre.take A.length := by
      have h := congrArg (List.take A.length) hEq
      rw [hL, hR] at h
      exact h
    refine ⟨pre.drop A.length, ?_⟩
    rw [List.append_assoc (pre.drop A.length) t post]
    have h2 : pre = A ++ pre.drop A.length := by
      conv_lhs => rw [← List.take_append_drop A.length pre]
      rw [← h1]
    rw [h2, List.append_assoc] at hEq
    exact List.append_cancel_left hEq
  · rcases le_or_lt (pre.length + t.length) A.length with hle2 | hlt2
    · -- the occurrence would fit inside `A`: its witness character intrudes
      exfalso
      apply hwitA
      have hL : (A ++ Y).take (pre.length + t.length) =
          A.take (pre.length + t.length) := by
        rw [List.take_append_eq_append_take, Nat.sub_eq_zero_of_le hle2,
          List.take_zero, List.append_nil]
      have hR : (pre ++ (t ++ post)).take (pre.length + t.length) =
          pre ++ t := by
        rw [List.take_append_eq_append_take,
          List.take_of_length_le (show pre.length ≤ pre.length + t.length by omega),
          Nat.add_sub_cancel_left, List.take_append_eq_append_take,
          List.take_length, Nat.sub_self, List.take_zero, List.append_nil]
      have hmem : wit ∈ A.take (pre.length + t.length) := by
        have h := congrArg (List.take (pre.length + t.length)) hEq
        rw [hL, hR] at h
        rw [h]
        exact List.mem_append.mpr (Or.inr hwit)
      exact (List.take_sublist _ _).subset hmem
    · -- the occurrence would straddle the boundary: the boundary character
      -- of `A` would then be a character of `t`
      exfalso
      apply hbnd
      obtain ⟨A', rfl⟩ := hA
      simp only [List.length_append, List.length_cons, List.length_nil] at hlt hlt2
      have e1 : ((A' ++ [bnd]) ++ Y)[A'.length]? = some bnd := by
        rw [List.getElem?_append_left (by simp), List.getElem?_append_right
          (le_refl A'.length), Nat.sub_self]
        exact List.getElem?_cons_zero
      have e2 : (pre ++ (t ++ post))[A'.length]? =
          t[A'.length - pre.length]? := by
        rw [List.getElem?_append_right (by omega),
          List.getElem?_append_left (by omega)]
      rw [hEq, e2] at e1
      exact List.getElem?_mem e1

/-- An occurrence of `t` in `X ++ B` lies wholly in `X` whenever `B` starts
with a character that does not occur in `t` and some character of `t` does
not occur in `B`. -/
theorem occurrence_before_right_block (X B pre post t : List Char) (bnd wit : Char)
    (hEq : X ++ B = pre ++ t ++ post)
    (hB : ∃ B', B = bnd :: B')
    (hbnd : bnd ∉ t) (hwit : wit ∈ t) (hwitB : wit ∉ B) :
    ∃ post2, X = pre ++ t ++ post2 := by
  rw [List.append_assoc pre t post] at hEq
  rcases le_or_lt (pre.length + t.length) X.length with hle | hlt
  · -- `pre ++ t` is a prefix of `X`
    refine ⟨X.drop (pre.length + t.length), ?_⟩
    have hL : (X ++ B).take (pre.length + t.length) =
        X.take (pre.length + t.length) := by
      rw [List.take_append_eq_append_take, Nat.sub_eq_zero_of_le hle,
        List.take_zero, List.append_nil]
    have hR : (pre ++ (t ++ post)).take (pre.length + t.length) = pre ++ t := by
      rw [List.take_append_eq_append_take,
        List.take_of_length_le (show pre.length ≤ pre.length + t.length by omega),
        Nat.add_sub_cancel_left, List.take_append_eq_append_take,
        List.take_length, Nat.sub_self, List.take_zero, List.append_nil]
    have h1 : X.take (pre.length + t.length) = pre ++ t := by
      have h := congrArg (List.take (pre.length + t.length)) hEq
      rw [hL, hR] at h
      exact h
    conv_lhs => rw [← List.take_append_drop (pre.length + t.length) X]
    rw [h1]
  · rcases le_or_lt X.length pre.length with hle2 | hlt2
    · -- the occurrence would fit inside `B`
      exfalso
      apply hwitB
      have hL : (X ++ B).drop X.length = B := List.drop_left X B
      have hR : (pre ++ (t ++ post)).drop X.length =
          pre.drop X.length ++ (t ++ post) := by
        rw [List.drop_append_eq_append_drop, Nat.sub_eq_zero_of_le hle2,
          List.drop_zero]
      have h1 : B = pre.drop X.length ++ (t ++ post) := by
        have h := congrArg (List.drop X.length) hEq
        rw [hL, hR] at h
        exact h
      rw [h1]
      exact List.mem_append.mpr (Or.inr (List.mem_append.mpr (Or.inl hwit)))
    · -- the occurrence would straddle the boundary
      exfalso
      apply hbnd
      obtain ⟨B', rfl⟩ := hB
      have e1 : (X ++ bnd :: B')[X.length]? = some bnd := by
        rw [List.getElem?_append_right (le_refl X.length), Nat.sub_self]
        exact List.getElem?_cons_zero
      have e2 : (pre ++ (t ++ post))[X.length]? = t[X.length - pre.length]? := by
        rw [List.getElem?_append_right (by omega),
          List.getElem?_append_left (by omega)]
      rw [hEq, e2] at e1
      exact List.getElem?_mem e1

/-- A string without the letter `'k'` cannot contain `"stroke"`. -/
theorem no_stroke_substring_of_no_k (s : String) (h : 'k' ∉ s.data) :
    ¬ ∃ p q : String, s = p ++ "stroke" ++ q := by
  rintro ⟨p, q, rfl⟩
  apply h
  simp only [String.data_append, List.mem_append]
  exact Or.inl (Or.inr (by decide))

/-- The crosshatch defs markup is never the empty string (its last chunk is
a fixed nonempty literal). -/
theorem def_crosshatch_ne_empty (id_ b s : String) (gap : Int) (op : ℚ) :
    def_crosshatch id_ b s gap op ≠ "" := by
  intro h
  have hd := congrArg String.data h
  simp only [def_crosshatch, String.data_append] at hd
  obtain ⟨-, h2⟩ := List.append_eq_nil.mp hd
  exact absurd h2 (by decide)

set_option maxRecDepth 8192 in
/-- C8 (amended): `svg_body` ignores its stroke color, stroke width and
outline style arguments entirely (and its part config), always renders the
filled ellipse, and introduces no stroke attribute of its own: whenever the
caller-provided fill defs are empty and the fill reference contains no
`"stroke"` substring, the document contains no `"stroke"` substring at all.
(The original claim fails because caller-provided fill defs — e.g. the
crosshatch pattern — may themselves contain stroke attributes, which
`svg_body` embeds verbatim.) -/
theorem svg_body_no_stroke (fill_defs fill_ref : String) (cfg cfg' : PartConfig)
    (stroke_col stroke_col' : String) (stroke_w stroke_w' : ℚ)
    (outline_style outline_style' : String) :
    svg_body fill_defs fill_ref cfg stroke_col stroke_w outline_style =
      svg_body fill_defs fill_ref cfg' stroke_col' stroke_w' outline_style' ∧
    (∃ pre post : String,
      svg_body fill_defs fill_ref cfg stroke_col stroke_w outline_style =
        pre ++ ("<ellipse cx=\"70\" cy=\"70\" rx=\"66\" ry=\"66\" fill=\"" ++
          fill_ref ++ "\" />") ++ post) ∧
    (fill_defs = "" →
      (¬ ∃ p q : String, fill_ref = p ++ "stroke" ++ q) →
      ¬ ∃ pre post : String,
          svg_body fill_defs fill_ref cfg stroke_col stroke_w outline_style =
            pre ++ "stroke" ++ post) := by
  refine ⟨rfl, ?_, ?_⟩
  · by_cases h : fill_defs = ""
    · subst h
      refine ⟨svg_header 140 140 ++ "\n", "\n" ++ svg_footer, ?_⟩
      simp only [svg_body, joinNL, List.cons_append, List.nil_append,
        if_pos rfl, String.append_assoc]
    · refine ⟨svg_header 140 140 ++ "\n" ++ fill_defs ++ "\n",
        "\n" ++ svg_footer, ?_⟩
      simp only [svg_body, joinNL, List.cons_append, List.nil_append,
        if_neg h, String.append_assoc]
  · intro h1 h2
    subst h1
    rintro ⟨pre, post, heq⟩
    apply h2
    have hdoc : svg_body "" fill_ref cfg stroke_col stroke_w outline_style =
        (svg_header 140 140 ++ "\n" ++
          "<ellipse cx=\"70\" cy=\"70\" rx=\"66\" ry=\"66\" fill=\"") ++
          (fill_ref ++ ("\" />" ++ ("\n" ++ svg_footer))) := by
      simp only [svg_body, joinNL, List.cons_append, List.nil_append,
        if_pos rfl, String.append_assoc]
    rw [hdoc] at heq
    have hd := congrArg String.data heq
    simp only [String.data_append] at hd
    obtain ⟨pre2, h3⟩ := occurrence_past_left_block
      (((svg_header 140 140).data ++ ("\n" : String).data) ++
        ("<ellipse cx=\"70\" cy=\"70\" rx=\"66\" ry=\"66\" fill=\"" : String).data)
      (fill_ref.data ++ (("\" />" : String).data ++
        (("\n" : String).data ++ svg_footer.data)))
      pre.data post.data ("stroke" : String).data '\"' 'k' hd
      ⟨(((svg_header 140 140).data ++ ("\n" : String).data) ++
        ("<ellipse cx=\"70\" cy=\"70\" rx=\"66\" ry=\"66\" fill=\"" : String).data).dropLast,
        by decide⟩
      (by decide) (by decide) (by decide)
    obtain ⟨post2, h4⟩ := occurrence_before_right_block
      fill_ref.data
      (("\" />" : String).data ++ (("\n" : String).data ++ svg_footer.data))
      pre2 post.data ("stroke" : String).data '\"' 'k' h3
      ⟨(("\" />" : String).data ++ (("\n" : String).data ++
        svg_footer.data)).tail, by decide⟩
      (by decide) (by decide) (by decide)
    refine ⟨⟨pre2⟩, ⟨post2⟩, ?_⟩
    exact congrArg String.mk h4

/-- C8 witness: stroke-argument independence and stroke-free output at a
concrete empty-defs, plain-color invocation. -/
theorem svg_body_no_stroke_witness :
    svg_body "" "#abc123" [] "#000" 8 "Solid" =
      svg_body "" "#abc123" [] "#fff" 99 "Glow" ∧
    ¬ ∃ pre post : String,
        svg_body "" "#abc123" [] "#000" 8 "Solid" = pre ++ "stroke" ++ post := by
  have h := svg_body_no_stroke "" "#abc123" [] [] "#000" "#fff" 8 99 "Solid" "Glow"
  exact ⟨h.1, h.2.2 rfl (no_stroke_substring_of_no_k "#abc123" (by decide))⟩

/-- C8 counterexample: with the crosshatch fill defs produced by
`build_fill`, the `svg_body` document does contain a stroke attribute
(embedded verbatim from the defs), so "no stroke attribute anywhere for
every fill defs" is false. -/
theorem svg_body_stroke_from_crosshatch_defs :
    (build_fill "Crosshatch" "#333333" "#222222" "#111111" 45 16 (3 / 5) 6).1 =
      def_crosshatch "ch" "#333333" "#111111" 16 (3 / 5) ∧
    ∃ pre post : String,
      svg_body
          (build_fill "Crosshatch" "#333333" "#222222" "#111111" 45 16 (3 / 5) 6).1
          "url(#ch)" [] "#000" 8 "Solid" =
        pre ++ "stroke=\"" ++ post := by
  refine ⟨rfl, ?_⟩
  refine ⟨svg_header 140 140 ++ "\n" ++
    ("<defs><pattern id=\"" ++ "ch" ++ "\" patternUnits=\"userSpaceOnUse\" " ++
      "width=\"" ++ intRepr 16 ++ "\" height=\"" ++ intRepr 16 ++ "\">" ++
      "<rect width=\"100%\" height=\"100%\" fill=\"" ++ "#333333" ++ "\"/>" ++
      "<path d=\"M0,0 L" ++ intRepr 16 ++ ",0 M0,0 L0," ++ intRepr 16 ++ "\" "),
    "#111111" ++ "\" stroke-width=\"" ++ ratRepr (((16 : Int) : ℚ) / 2) ++
      "\" opacity=\"" ++ ratRepr (3 / 5) ++ "\"/>" ++ "</pattern></defs>" ++
      "\n" ++
      ("<ellipse cx=\"70\" cy=\"70\" rx=\"66\" ry=\"66\" fill=\"" ++
        "url(#ch)" ++ "\" />") ++ "\n" ++ svg_footer, ?_⟩
  rw [show (build_fill "Crosshatch" "#333333" "#222222" "#111111" 45 16 (3 / 5) 6).1 =
    def_crosshatch "ch" "#333333" "#111111" 16 (3 / 5) from rfl]
  simp only [svg_body, joinNL, List.cons_append, List.nil_append,
    if_neg (def_crosshatch_ne_empty "ch" "#333333" "#111111" 16 (3 / 5)),
    def_crosshatch, String.append_assoc]

/-- C9 witness: the fallthrough at the unrecognized style `"Zigzag"`. -/
theorem build_fill_unknown_style_witness :
    build_fill "Zigzag" "#111111" "#222222" "#333333" 45 16 (3 / 5) 6 =
      ("", "#111111") ∧
    build_fill "Zigzag" "#111111" "#222222" "#333333" 45 16 (3 / 5) 6 =
      build_fill "Solid" "#111111" "#222222" "#333333" 45 16 (3 / 5) 6 :=
  build_fill_unknown_style "Zigzag" "#111111" "#222222" "#333333" 45 16 (3 / 5) 6
    (by decide) (by decide) (by decide) (by decide) (by decide) (by decide)
    (by decide) (by decide) (by decide)

end SkinCreator
